import Mathlib

/-!
Shallow embedding of `image-lens-reproject` (`src/src/main.cpp`) and proofs
about its configuration handling, filename filtering, batch pipeline and
per-item processing.  C++ `std::string` values are modelled as `List Char`,
`double`/`float` as `ℚ`, and the external collaborators declared in
`reproject.hpp` / `image_formats.hpp` (decode, encode, reproject, colour
processing, `atof`) as function parameters carried in a `World` record.
-/

/-- Lens type tag, from `reproject::LensType` (used via
`reproject::RECTILINEAR`, `reproject::FISHEYE_EQUISOLID`,
`reproject::FISHEYE_EQUIDISTANT` in `main.cpp`). -/
inductive LensType where
  | RECTILINEAR
  | FISHEYE_EQUISOLID
  | FISHEYE_EQUIDISTANT
deriving DecidableEq, Repr

/-- Parameters of the rectilinear lens variant. -/
structure RectilinearParams where
  focal_length : ℚ
deriving DecidableEq, Repr

/-- Parameters of the fisheye-equisolid lens variant. -/
structure FisheyeEquisolidParams where
  focal_length : ℚ
  fov : ℚ
deriving DecidableEq, Repr

/-- Parameters of the fisheye-equidistant lens variant. -/
structure FisheyeEquidistantParams where
  fov : ℚ
deriving DecidableEq, Repr

/-- `reproject::LensInfo`: a type tag, the shared sensor dimensions, and the
per-variant parameter blocks (the C++ union is flattened into a product;
only the block matching `type` is meaningful). -/
structure LensInfo where
  type : LensType
  sensor_width : ℚ
  sensor_height : ℚ
  rectilinear : RectilinearParams
  fisheye_equisolid : FisheyeEquisolidParams
  fisheye_equidistant : FisheyeEquidistantParams
deriving DecidableEq, Repr

/-- A convenient concrete `LensInfo` value (all fields zeroed). -/
def lens0 : LensInfo :=
  ⟨.RECTILINEAR, 0, 0, ⟨0⟩, ⟨0, 0⟩, ⟨0⟩⟩

/-- One entry of the config's `frames` array; only its `name` field is read
by `main.cpp`. -/
structure Frame where
  name : List Char
deriving DecidableEq, Repr

/-- The JSON config document, restricted to the fields `main.cpp` reads and
writes: `resolution` (`[res_x, res_y]`), `camera` (held abstractly as the
`LensInfo` it encodes), and `frames`. -/
structure Config where
  resolution_x : Int
  resolution_y : Int
  camera : LensInfo
  frames : List Frame
deriving DecidableEq, Repr

/-- Modelled from the spec: `reproject::extract_lens_info_from_config` is
declared in `reproject.hpp`, whose implementation is not in `src/`; the spec
describes the config's `camera` object as "convertible to/from a
`LensModel`", so the extraction is modelled as reading that object. -/
def extract_lens_info_from_config (cfg : Config) : LensInfo :=
  cfg.camera

/-- Modelled from the spec: `reproject::store_lens_info_in_config` is
declared in `reproject.hpp`, whose implementation is not in `src/`; the spec
describes the config's `camera` object as "convertible to/from a
`LensModel`", so storing is modelled as replacing that object. -/
def store_lens_info_in_config (lens : LensInfo) (cfg : Config) : Config :=
  { cfg with camera := lens }

/-- `s.substr(pos)` on a C++ string (suffix from `pos`). -/
def cppSubstr (s : List Char) (pos : Nat) : List Char :=
  s.drop pos

/-- `s.substr(pos, len)` on a C++ string (clamped at the end, as in C++). -/
def cppSubstrLen (s : List Char) (pos len : Nat) : List Char :=
  (s.drop pos).take len

/-- `s.find(c, start)` on a C++ string: index of the first occurrence of `c`
at position `start` or later, `none` for `npos`. -/
def cppFindFrom (s : List Char) (c : Char) (start : Nat) : Option Nat :=
  ((List.range s.length).drop start).find? (fun i => s.get? i == some c)

/-- The `remove` flag computed for one frame name by the frames-filter loop,
`main.cpp:203-212`: drop the name unless it is at least as long as both
filters, starts with `filter-prefix` and ends with `filter-suffix`. -/
def frameRemove (pre suf name : List Char) : Bool :=
  if name.length < pre.length ∨ name.length < suf.length then true
  else if name.take pre.length ≠ pre then true
  else if name.drop (name.length - suf.length) ≠ suf then true
  else false

/-- The frames-filter loop, `main.cpp:200-216` (`erase(i--)` keeps scanning
from the element after the erased one, so the loop is elementwise). -/
def framesFilterLoop (pre suf : List Char) : List Frame → List Frame
  | [] => []
  | f :: rest =>
      if frameRemove pre suf f.name then framesFilterLoop pre suf rest
      else f :: framesFilterLoop pre suf rest

/-- The keep condition of the directory-scan filter, `main.cpp:392-402`
(the three `continue` guards, before the extension check). -/
def dirKeep (pre suf fn : List Char) : Bool :=
  if fn.length < pre.length ∨ fn.length < suf.length then false
  else if fn.take pre.length ≠ pre then false
  else if fn.drop (fn.length - suf.length) ≠ suf then false
  else true

theorem frameRemove_eq_false_iff (pre suf name : List Char) :
    frameRemove pre suf name = false ↔ pre <+: name ∧ suf <:+ name := by
  unfold frameRemove
  by_cases hlen : name.length < pre.length ∨ name.length < suf.length
  · rw [if_pos hlen]
    simp only [Bool.true_eq_false, false_iff]
    rintro ⟨hp, hs⟩
    rcases hlen with h | h
    · exact absurd hp.length_le (by omega)
    · exact absurd hs.length_le (by omega)
  · rw [if_neg hlen]
    by_cases hp : name.take pre.length ≠ pre
    · rw [if_pos hp]
      simp only [Bool.true_eq_false, false_iff]
      rintro ⟨hp', _⟩
      exact hp (List.prefix_iff_eq_take.mp hp').symm
    · rw [if_neg hp]
      push_neg at hp
      by_cases hs : name.drop (name.length - suf.length) ≠ suf
      · rw [if_pos hs]
        simp only [Bool.true_eq_false, false_iff]
        rintro ⟨_, hs'⟩
        exact hs (List.suffix_iff_eq_drop.mp hs').symm
      · rw [if_neg hs]
        push_neg at hs
        constructor
        · intro _
          exact ⟨List.prefix_iff_eq_take.mpr hp.symm,
                 List.suffix_iff_eq_drop.mpr hs.symm⟩
        · intro _
          rfl

theorem framesFilterLoop_mem (pre suf : List Char) (fr : List Frame)
    (f : Frame) :
    f ∈ framesFilterLoop pre suf fr ↔
      f ∈ fr ∧ pre <+: f.name ∧ suf <:+ f.name := by
  induction fr with
  | nil => simp [framesFilterLoop]
  | cons g rest ih =>
    unfold framesFilterLoop
    by_cases hg : frameRemove pre suf g.name = true
    · rw [if_pos hg, ih]
      constructor
      · rintro ⟨hmem, hps⟩
        exact ⟨List.mem_cons_of_mem _ hmem, hps⟩
      · rintro ⟨hmem, hps⟩
        rcases List.mem_cons.mp hmem with rfl | hmem
        · have := (frameRemove_eq_false_iff pre suf f.name).mpr hps
          rw [this] at hg
          exact absurd hg (by simp)
        · exact ⟨hmem, hps⟩
    · rw [if_neg hg]
      have hkeep := (frameRemove_eq_false_iff pre suf g.name).mp
        (Bool.not_eq_true _ ▸ hg)
      constructor
      · intro hmem
        rcases List.mem_cons.mp hmem with rfl | hmem
        · exact ⟨List.mem_cons_self _ _, hkeep⟩
        · have := ih.mp hmem
          exact ⟨List.mem_cons_of_mem _ this.1, this.2⟩
      · rintro ⟨hmem, hps⟩
        rcases List.mem_cons.mp hmem with rfl | hmem
        · exact List.mem_cons_self _ _
        · exact List.mem_cons_of_mem _ (ih.mpr ⟨hmem, hps⟩)

theorem dirKeep_eq_not_frameRemove (pre suf fn : List Char) :
    dirKeep pre suf fn = !frameRemove pre suf fn := by
  unfold dirKeep frameRemove
  split
  · rfl
  · split
    · rfl
    · split <;> rfl

/-- C4: the frame filter retains exactly the names that start with the
prefix filter and end with the suffix filter (in particular, on
`["a_1","b_1","a_2"]` prefix `"a_"` retains `{"a_1","a_2"}`, suffix `"_2"`
retains `{"a_2"}`, and both together retain the intersection `{"a_2"}`), and
the directory-scan filter applies the same rule (its keep condition is the
negation of the frame filter's remove flag). -/
theorem C4_filter_correctness :
    (∀ pre suf : List Char, ∀ fr : List Frame, ∀ f : Frame,
        f ∈ framesFilterLoop pre suf fr ↔
          f ∈ fr ∧ pre <+: f.name ∧ suf <:+ f.name)
    ∧ (∀ pre suf fn : List Char,
        dirKeep pre suf fn = !frameRemove pre suf fn)
    ∧ (framesFilterLoop "a_".data [] [⟨"a_1".data⟩, ⟨"b_1".data⟩, ⟨"a_2".data⟩]
         = [⟨"a_1".data⟩, ⟨"a_2".data⟩]
       ∧ framesFilterLoop [] "_2".data [⟨"a_1".data⟩, ⟨"b_1".data⟩, ⟨"a_2".data⟩]
         = [⟨"a_2".data⟩]
       ∧ framesFilterLoop "a_".data "_2".data
           [⟨"a_1".data⟩, ⟨"b_1".data⟩, ⟨"a_2".data⟩]
         = [⟨"a_2".data⟩]) :=
  ⟨framesFilterLoop_mem, dirKeep_eq_not_frameRemove,
   by decide, by decide, by decide⟩

/-- Truncation of a `double` to `int` by `int(...)` in C++: rounding toward
zero (`Int.tdiv` is truncating division, and a rational in lowest terms
truncates to `num tdiv den`). -/
def cppInt (q : ℚ) : Int :=
  q.num.tdiv (q.den : Int)

/-- The parsed command-line options of `main.cpp`.  Option values are taken
after `cxxopts` parsing (an external collaborator): presence flags are
`Bool`, valued options are `Option` or carry their defaults
(`scale = 1`, `exposure EV = 0`, `reinhard = 1`, empty filters).  The
exposure EV is restricted to integers so that the multiplier `2^EV`
(main.cpp:137) stays exact. -/
structure Opts where
  input_dir : Option (List Char)
  single : Option (List Char)
  exr : Bool
  png : Bool
  nn : Bool
  bl : Bool
  bc : Bool
  samples : Nat
  parallel : Nat
  scale : ℚ
  auto_exposure : Bool
  exposure_ev : Int
  reinhard : ℚ
  no_reproject : Bool
  dry_run : Bool
  skip_if_exists : Bool
  filter_pre : List Char
  filter_suf : List Char
  rectilinear : Option (List Char)
  equisolid : Option (List Char)
  equidistant : Option (List Char)

/-- A baseline invocation: `--single img.png --png`, everything else at its
default. -/
def baseOpts : Opts where
  input_dir := none
  single := some "img.png".data
  exr := false
  png := true
  nn := false
  bl := false
  bc := false
  samples := 1
  parallel := 1
  scale := 1
  auto_exposure := false
  exposure_ev := 0
  reinhard := 1
  no_reproject := false
  dry_run := false
  skip_if_exists := false
  filter_pre := []
  filter_suf := []
  rectilinear := none
  equisolid := none
  equidistant := none

/-- The output-lens selection, `main.cpp:224-275`.  `init_lens` stands for
the indeterminate contents of the default-initialised
`reproject::LensInfo output_lens` (main.cpp:224); `atof` is the C library
conversion, held abstract.  Early `return 1` on a malformed argument string
is `throw 1`.  Exactly as in the source, the `--equidistant` branch sets the
tag `FISHEYE_EQUISOLID` (main.cpp:264) while filling the
`fisheye_equidistant` parameter block, and no branch checks for zero
selected lens types. -/
def selectOutputLens (atof : List Char → ℚ) (res_x res_y : Int)
    (input_lens init_lens : LensInfo)
    (rect es ed : Option (List Char)) (reproject : Bool) :
    Except Nat (LensInfo × Nat) := do
  let mut output_lens := init_lens
  let mut output_lens_types_found : Nat := 0
  if let some lstr := rect then
    match cppFindFrom lstr ',' 0 with
    | none => throw 1
    | some comma =>
      output_lens := { output_lens with
        type := .RECTILINEAR
        rectilinear := { focal_length := atof (cppSubstrLen lstr 0 comma) }
        sensor_width := atof (cppSubstr lstr (comma + 1)) }
      output_lens := { output_lens with
        sensor_height := (res_y : ℚ) / (res_x : ℚ) * output_lens.sensor_width }
      output_lens_types_found := output_lens_types_found + 1
  if let some lstr := es then
    match cppFindFrom lstr ',' 0 with
    | none => throw 1
    | some comma1 =>
      match cppFindFrom lstr ',' (comma1 + 1) with
      | none => throw 1
      | some comma2 =>
        output_lens := { output_lens with
          type := .FISHEYE_EQUISOLID
          fisheye_equisolid := {
            focal_length := atof (cppSubstrLen lstr 0 comma1)
            fov := atof (cppSubstr lstr (comma2 + 1)) }
          sensor_width := atof (cppSubstrLen lstr (comma1 + 1) comma2) }
        output_lens := { output_lens with
          sensor_height := (res_y : ℚ) / (res_x : ℚ) * output_lens.sensor_width }
        output_lens_types_found := output_lens_types_found + 1
  if let some lstr := ed then
    output_lens := { output_lens with
      type := .FISHEYE_EQUISOLID
      fisheye_equidistant := { fov := atof lstr }
      sensor_width := 36
      sensor_height := 36 }
    output_lens_types_found := output_lens_types_found + 1
  if !reproject then
    output_lens := input_lens
    output_lens_types_found := output_lens_types_found + 1
  return (output_lens, output_lens_types_found)

/-- Result of the configuration phase: the mutated in-memory input config
(`cfg`, whose `resolution` is scaled at main.cpp:279-280 but which is never
persisted), the persisted output config (`out_cfg`), and the two lenses. -/
structure PhaseOut where
  cfg_mem : Config
  out_cfg : Config
  input_lens : LensInfo
  output_lens : LensInfo
deriving DecidableEq, Repr

/-- The configuration phase of `main`, `main.cpp:194-286`: frame filtering,
resolution extraction, input-lens extraction, output-lens selection, storing
the output lens in `out_cfg`, scaling the resolution of the in-memory input
`cfg`, and the conflicting-selection check (`output_lens_types_found > 1`).
`throw c` models `return c`. -/
def configPhase (atof : List Char → ℚ) (init_lens : LensInfo) (o : Opts)
    (cfg : Config) : Except Nat PhaseOut := do
  let out_cfg0 := { cfg with
    frames := framesFilterLoop o.filter_pre o.filter_suf cfg.frames }
  let res_x := cfg.resolution_x
  let res_y := cfg.resolution_y
  let input_lens := extract_lens_info_from_config cfg
  let (output_lens, output_lens_types_found) ←
    selectOutputLens atof res_x res_y input_lens init_lens
      o.rectilinear o.equisolid o.equidistant (!o.no_reproject)
  let out_cfg := store_lens_info_in_config output_lens out_cfg0
  let cfg_mem := { cfg with
    resolution_x := cppInt ((res_x : ℚ) * o.scale)
    resolution_y := cppInt ((res_y : ℚ) * o.scale) }
  if output_lens_types_found > 1 then throw 1
  return ⟨cfg_mem, out_cfg, input_lens, output_lens⟩

/-- A concrete input config used in closed evaluations: 640×480, camera
`lens0`, no frames. -/
def cfg640 : Config :=
  { resolution_x := 640, resolution_y := 480, camera := lens0, frames := [] }

/-- C1: on an invocation selecting only `--equidistant 3.14`, the output
lens constructed by the selection code carries the tag `FISHEYE_EQUISOLID`,
not the distinct `FISHEYE_EQUIDISTANT` tag that the spec's data model
assigns to the equidistant variant (main.cpp:264 sets
`reproject::FISHEYE_EQUISOLID` inside the `--equidistant` branch). -/
theorem C1_equidistant_mis_tagged :
    (selectOutputLens (fun _ => 0) 640 480 lens0 lens0
        none none (some "3.14".data) true).map
        (fun r => (r.1.type, r.2))
      = .ok (LensType.FISHEYE_EQUISOLID, 1)
    ∧ LensType.FISHEYE_EQUISOLID ≠ LensType.FISHEYE_EQUIDISTANT := by
  exact ⟨rfl, by decide⟩

/-- `reproject::Image`: dimensions, channel count, flat pixel buffer
(row-major floats, modelled as `List ℚ`), and the lens describing it.  The
`data_layout` field of the C++ struct is never branched on in `main.cpp` and
is not modelled. -/
structure Image where
  width : Int
  height : Int
  channels : Int
  data : List ℚ
  lens : LensInfo
deriving DecidableEq, Repr

/-- `reproject::Interpolation`. -/
inductive Interp where
  | NEAREST
  | BILINEAR
  | BICUBIC
deriving DecidableEq, Repr

/-- Interpolation selection, `main.cpp:172-185`: starts at `BICUBIC` and is
overwritten by `--nn`, `--bl`, `--bc` in that textual order (more than one
flag prints a message but does not abort, main.cpp:186-189). -/
def chooseInterp (o : Opts) : Interp :=
  let i := Interp.BICUBIC
  let i := if o.nn then Interp.NEAREST else i
  let i := if o.bl then Interp.BILINEAR else i
  let i := if o.bc then Interp.BICUBIC else i
  i

/-- One directory entry seen by the `ghc::filesystem::directory_iterator`
loop, `main.cpp:384-388`. -/
structure DirEntry where
  name : List Char
  is_regular_file : Bool
deriving DecidableEq, Repr

/-- Index of the last `'.'` of a filename, if any. -/
def lastDotIdx (f : List Char) : Option Nat :=
  ((List.range f.length).reverse).find? (fun i => f.get? i == some '.')

/-- `fs::path::extension()` on a filename: the substring from the last dot
(inclusive); empty for dotless names, for `.` / `..`, and for names whose
only dot is the leading character. -/
def pathExtension (f : List Char) : List Char :=
  if f = ['.'] ∨ f = ['.', '.'] then []
  else
    match lastDotIdx f with
    | none => []
    | some 0 => []
    | some i => f.drop i

/-- The external collaborators and ambient filesystem state of one run:
the parsed input config, the input directory's entries, which output files
already exist (keyed by the submitted input path, whose stem names the
outputs), the decode / reproject / colour-processing collaborators, the
C library `atof`, indeterminate default-initialised values, and which
collaborator calls throw for a given item. -/
structure World where
  input_cfg : Config
  dir_entries : List DirEntry
  png_exists : List Char → Bool
  exr_exists : List Char → Bool
  atof : List Char → ℚ
  init_lens : LensInfo
  init_image : Image
  read_exr : List Char → Image
  read_png : List Char → Image
  reproject_fn : Image → Image → Nat → Interp → List ℚ
  auto_exposure_fn : Image → ℚ → List ℚ
  post_process_fn : Image → ℚ → ℚ → List ℚ
  fail_decode : List Char → Bool
  fail_reproject : List Char → Bool
  fail_save_png : List Char → Bool
  fail_save_exr : List Char → Bool

/-- Observable per-item calls of the worker lambda: decode, the
`new float[...]` output-buffer allocation, the reprojection call, the two
colour-processing calls, and the two encoders. -/
inductive PAction where
  | decode_exr
  | decode_png
  | alloc
  | reproject_call
  | color_auto
  | color_post
  | save_png
  | save_exr
deriving DecidableEq, Repr

/-- Terminal state of one work item. -/
inductive Outcome where
  | done
  | skipped
  | failed
deriving DecidableEq, Repr

/-- What one worker invocation produced: the calls it made, its terminal
state, and the image it handed to the encoders (when it got that far). -/
structure ItemResult where
  trace : List PAction
  outcome : Outcome
  output : Option Image
deriving DecidableEq, Repr

/-- The `exists` flag of the skip-if-exists check, `main.cpp:315-321`. -/
def outputExistsFlag (o : Opts) (w : World) (p : List Char) : Bool :=
  let e0 := true
  let e1 := if o.png = true ∧ w.png_exists p = false then false else e0
  let e2 := if o.exr = true ∧ w.exr_exists p = false then false else e1
  e2

/-- The reprojection stage of the worker, `main.cpp:337-352`: allocate the
output buffer at the scaled (truncated) dimensions, then either `memcpy` the
input buffer verbatim (when `--no-reproject` is set and `scale == 1.0`) or
call `reproject::reproject` (which may throw, yielding `none`). -/
def reprojectStage (o : Opts) (w : World) (output_lens : LensInfo)
    (p : List Char) (input : Image) : List PAction × Option Image :=
  let ow := cppInt ((input.width : ℚ) * o.scale)
  let oh := cppInt ((input.height : ℚ) * o.scale)
  let elems := (ow * oh * input.channels).toNat
  let output0 : Image :=
    { width := ow, height := oh, channels := input.channels
      data := List.replicate elems 0, lens := output_lens }
  if o.no_reproject = true ∧ o.scale = 1 then
    ([PAction.alloc], some { output0 with data := input.data.take elems })
  else if w.fail_reproject p then
    ([PAction.alloc, PAction.reproject_call], none)
  else
    ([PAction.alloc, PAction.reproject_call],
     some { output0 with
       data := w.reproject_fn input output0 o.samples (chooseInterp o) })

/-- The colour-processing dispatch of the worker, `main.cpp:354-358`, with
`exposure = 2^EV` (main.cpp:137): auto-exposure when requested, otherwise
`post_process` unless both the exposure multiplier and the reinhard maximum
equal `1`, in which case the buffer passes through untouched. -/
def colorStage (o : Opts) (w : World) (output : Image) :
    List PAction × Image :=
  let exposure : ℚ := (2 : ℚ) ^ o.exposure_ev
  if o.auto_exposure then
    ([PAction.color_auto],
     { output with data := w.auto_exposure_fn output o.reinhard })
  else if exposure ≠ 1 ∨ o.reinhard ≠ 1 then
    ([PAction.color_post],
     { output with data := w.post_process_fn output exposure o.reinhard })
  else ([], output)

/-- The worker lambda body, `main.cpp:309-374`: skip-if-exists check,
decode by extension, reprojection stage, colour stage, then the selected
encoders.  A throwing collaborator call lands in the `catch` block
(outcome `failed`); the skip path and the successful path are the only ones
that bump `done_count`. -/
def process_file (o : Opts) (w : World) (input_lens output_lens : LensInfo)
    (p : List Char) : ItemResult :=
  if outputExistsFlag o w p = true ∧ o.skip_if_exists = true then
    { trace := [], outcome := .skipped, output := none }
  else
    let ext := pathExtension p
    let dec : List PAction × Option Image :=
      if ext = ".exr".data then
        if w.fail_decode p then ([PAction.decode_exr], none)
        else ([PAction.decode_exr], some (w.read_exr p))
      else if ext = ".png".data then
        if w.fail_decode p then ([PAction.decode_png], none)
        else ([PAction.decode_png], some (w.read_png p))
      else ([], some w.init_image)
    match dec with
    | (tr, none) => { trace := tr, outcome := .failed, output := none }
    | (tr, some input0) =>
      let input := { input0 with lens := input_lens }
      match reprojectStage o w output_lens p input with
      | (tr2, none) =>
          { trace := tr ++ tr2, outcome := .failed, output := none }
      | (tr2, some output1) =>
        let c := colorStage o w output1
        if o.png = true ∧ w.fail_save_png p = true then
          { trace := tr ++ tr2 ++ c.1 ++ [PAction.save_png],
            outcome := .failed, output := none }
        else
          let tr4 := if o.png then [PAction.save_png] else []
          if o.exr = true ∧ w.fail_save_exr p = true then
            { trace := tr ++ tr2 ++ c.1 ++ tr4 ++ [PAction.save_exr],
              outcome := .failed, output := none }
          else
            let tr5 := if o.exr then [PAction.save_exr] else []
            { trace := tr ++ tr2 ++ c.1 ++ tr4 ++ tr5,
              outcome := .done, output := some c.2 }

/-- How much one item's terminal state adds to the shared `done_count`:
`1` on the skip path (main.cpp:325) and on success (main.cpp:370), `0` when
the item's processing throws (the `catch` at main.cpp:372 does not
increment). -/
def outcomeDelta : Outcome → Nat
  | .failed => 0
  | _ => 1

/-- The value of `done_count` after a list of items has been processed. -/
def doneCountAfter (o : Opts) (w : World) (il ol : LensInfo)
    (items : List (List Char)) : Nat :=
  (items.map (fun p => outcomeDelta (process_file o w il ol p).outcome)).sum

/-- The work items submitted to the pool, `main.cpp:379-410`: in directory
mode the regular files, sorted lexicographically, that pass the
prefix/suffix filter and have extension `.exr` or `.png`; in single mode
the one given path. -/
def submittedItems (o : Opts) (w : World) : List (List Char) :=
  match o.input_dir with
  | some _ =>
      let paths := List.insertionSort (· ≤ ·)
        ((w.dir_entries.filter (fun e => e.is_regular_file)).map
          (fun e => e.name))
      paths.filter (fun fn =>
        dirKeep o.filter_pre o.filter_suf fn
        && (pathExtension fn == ".exr".data
            || pathExtension fn == ".png".data))
  | none =>
      match o.single with
      | some p => [p]
      | none => []

/-- Externally visible events of one run, in program order. -/
inductive Event where
  | created_dir
  | wrote_config (doc : Config)
  | item_act (p : List Char) (a : PAction)
  | item_term (p : List Char) (oc : Outcome)
deriving DecidableEq, Repr

/-- The events contributed by one work item. -/
def itemEvents (o : Opts) (w : World) (il ol : LensInfo) (p : List Char) :
    List Event :=
  let r := process_file o w il ol p
  r.trace.map (Event.item_act p) ++ [Event.item_term p r.outcome]

/-- Whole-program model of `main` (after `cxxopts` parsing): input-mode
checks (main.cpp:116-128), output-format check (main.cpp:166-170), the
configuration phase, directory creation and config write
(main.cpp:288-294), the dry-run exit (main.cpp:296-299), and the submission
loop feeding the worker (main.cpp:379-412).  Returns the exit code and the
ordered event trace. -/
def runMain (o : Opts) (w : World) : Nat × List Event :=
  if o.input_dir.isSome = true ∧ o.single.isSome = true then (1, [])
  else if o.input_dir.isNone = true ∧ o.single.isNone = true then (1, [])
  else if o.exr = false ∧ o.png = false then (1, [])
  else
    match configPhase w.atof w.init_lens o w.input_cfg with
    | .error c => (c, [])
    | .ok ph =>
      let setup := [Event.created_dir, Event.wrote_config ph.out_cfg]
      if o.dry_run then (0, setup)
      else
        let items := submittedItems o w
        (0, setup ++
          (items.map (itemEvents o w ph.input_lens ph.output_lens)).flatten)

/-- A tiny 2×1 RGB image with six distinct samples. -/
def img2x1 : Image :=
  { width := 2, height := 1, channels := 3
    data := [1, 2, 3, 4, 5, 6], lens := lens0 }

/-- A concrete world: config `cfg640`, empty directory, no pre-existing
outputs, trivial collaborators, no call throws. -/
def world1 : World :=
  { input_cfg := cfg640
    dir_entries := []
    png_exists := fun _ => false
    exr_exists := fun _ => false
    atof := fun _ => 0
    init_lens := lens0
    init_image := { width := 0, height := 0, channels := 0
                    data := [], lens := lens0 }
    read_exr := fun _ => img2x1
    read_png := fun _ => img2x1
    reproject_fn := fun _ _ _ _ => []
    auto_exposure_fn := fun i _ => i.data
    post_process_fn := fun i _ _ => i.data
    fail_decode := fun _ => false
    fail_reproject := fun _ => false
    fail_save_png := fun _ => false
    fail_save_exr := fun _ => false }

/-- C2: the persisted output config does not carry the scaled resolution.
On input resolution 640×480 with `--scale 0.5` (and `--no-reproject` as the
selected output lens), the document written to the output-config path keeps
resolution 640×480 — the scaled values 320×240 required by the claim are
computed (main.cpp:279-280) but stored into the in-memory *input* config
`cfg`, which is never persisted, while `out_cfg.dump(2)` is what is written
(main.cpp:293).  The camera field does reflect the selected output lens. -/
theorem C2_resolution_not_scaled :
    ((configPhase (fun _ => 0) lens0
        { baseOpts with no_reproject := true, scale := 1/2 }
        cfg640).toOption.map
        (fun r => (r.out_cfg.resolution_x, r.out_cfg.resolution_y,
                   r.out_cfg.camera,
                   r.cfg_mem.resolution_x, r.cfg_mem.resolution_y)))
      = some (640, 480, lens0, 320, 240)
    ∧ ((640 : Int), (480 : Int)) ≠ ((320 : Int), (240 : Int)) := by
  constructor
  · with_unfolding_all rfl
  · decide

/-- C3: a missing output-lens selection is not fatal.  With a valid config,
`--png`, `--single img.png` and none of `--rectilinear` / `--equisolid` /
`--equidistant` / `--no-reproject`, `output_lens_types_found` stays `0`, the
only guard checks `> 1` (main.cpp:282), and the run proceeds all the way to
decoding and encoding the image with the default-initialised
(indeterminate) output lens, exiting with code 0. -/
theorem C3_missing_selection_not_fatal :
    (runMain baseOpts world1).1 = 0
    ∧ Event.item_act "img.png".data PAction.decode_png
        ∈ (runMain baseOpts world1).2
    ∧ Event.item_act "img.png".data PAction.save_png
        ∈ (runMain baseOpts world1).2 := by
  refine ⟨?_, ?_, ?_⟩ <;>
    exact of_decide_eq_true (by with_unfolding_all rfl)

theorem cppInt_intCast (n : Int) : cppInt (n : ℚ) = n := by
  unfold cppInt
  rw [Rat.num_intCast, Rat.den_intCast]
  exact Int.tdiv_one n

/-- C5: with skip-if-exists enabled and every selected output file already
present, the worker short-circuits to its terminal state: it makes no
decode, reproject, colour-processing or encode call, allocates no buffer
(empty trace), and still contributes `1` to the progress counter
(main.cpp:322-327). -/
theorem C5_skip_if_exists (o : Opts) (w : World) (il ol : LensInfo)
    (p : List Char)
    (hskip : o.skip_if_exists = true)
    (hpng : o.png = true → w.png_exists p = true)
    (hexr : o.exr = true → w.exr_exists p = true) :
    process_file o w il ol p
      = { trace := [], outcome := Outcome.skipped, output := none }
    ∧ outcomeDelta (process_file o w il ol p).outcome = 1 := by
  have h1 : ¬(o.png = true ∧ w.png_exists p = false) := by
    rintro ⟨h, h'⟩
    rw [hpng h] at h'
    cases h'
  have h2 : ¬(o.exr = true ∧ w.exr_exists p = false) := by
    rintro ⟨h, h'⟩
    rw [hexr h] at h'
    cases h'
  have hflag : outputExistsFlag o w p = true := by
    show (if o.exr = true ∧ w.exr_exists p = false then false
          else if o.png = true ∧ w.png_exists p = false then false
          else true) = true
    rw [if_neg h2, if_neg h1]
  have hres : process_file o w il ol p
      = { trace := [], outcome := Outcome.skipped, output := none } := by
    unfold process_file
    rw [if_pos ⟨hflag, hskip⟩]
  exact ⟨hres, by rw [hres]; rfl⟩

/-- Witness for C5: `--png --skip-if-exists` on an item whose `.png` output
already exists. -/
theorem C5_skip_if_exists_witness :
    process_file { baseOpts with skip_if_exists := true }
        { world1 with png_exists := fun _ => true } lens0 lens0 "img.png".data
      = { trace := [], outcome := Outcome.skipped, output := none }
    ∧ outcomeDelta (process_file { baseOpts with skip_if_exists := true }
        { world1 with png_exists := fun _ => true } lens0 lens0
        "img.png".data).outcome = 1 :=
  C5_skip_if_exists _ _ _ _ _ rfl (fun _ => rfl) (fun h => nomatch h)

/-- C6: with `--no-reproject` and `scale == 1.0`, the reprojection stage
never calls `reproject::reproject` (its trace is just the buffer
allocation) and the produced output buffer is bit-identical to the source
buffer (`memcpy` of exactly `width*height*channels` samples,
main.cpp:346-352). -/
theorem C6_pass_through_identity (o : Opts) (w : World) (ol : LensInfo)
    (p : List Char) (input : Image)
    (hnp : o.no_reproject = true) (hs : o.scale = 1)
    (hlen : input.data.length
      = (input.width * input.height * input.channels).toNat) :
    (reprojectStage o w ol p input).1 = [PAction.alloc]
    ∧ PAction.reproject_call ∉ (reprojectStage o w ol p input).1
    ∧ (reprojectStage o w ol p input).2
        = some { width := input.width, height := input.height,
                 channels := input.channels, data := input.data,
                 lens := ol } := by
  have hcond : o.no_reproject = true ∧ o.scale = 1 := ⟨hnp, hs⟩
  unfold reprojectStage
  rw [if_pos hcond, hs]
  simp only [mul_one, cppInt_intCast]
  refine ⟨by trivial, by simp, ?_⟩
  rw [← hlen, List.take_length]

/-- Witness for C6: the 2×1 RGB image under `--no-reproject` at scale 1. -/
theorem C6_pass_through_identity_witness :
    (reprojectStage { baseOpts with no_reproject := true } world1 lens0
        "img.png".data img2x1).1 = [PAction.alloc]
    ∧ PAction.reproject_call ∉
        (reprojectStage { baseOpts with no_reproject := true } world1 lens0
          "img.png".data img2x1).1
    ∧ (reprojectStage { baseOpts with no_reproject := true } world1 lens0
        "img.png".data img2x1).2
        = some { width := 2, height := 1, channels := 3,
                 data := [1, 2, 3, 4, 5, 6], lens := lens0 } :=
  C6_pass_through_identity _ _ _ _ _ rfl rfl (by decide)

/-- C7: when the exposure multiplier `2^EV` equals 1 (EV = 0), the reinhard
maximum equals 1 and auto-exposure is off, the colour dispatch
(main.cpp:354-358) makes no colour-processing call and passes the image
through unchanged. -/
theorem C7_color_noop (o : Opts) (w : World) (img : Image)
    (hauto : o.auto_exposure = false) (hev : o.exposure_ev = 0)
    (hrein : o.reinhard = 1) :
    colorStage o w img = ([], img) := by
  simp [colorStage, hauto, hev, hrein]

/-- Witness for C7: defaults (EV 0, reinhard 1, no auto-exposure) on the
2×1 RGB image. -/
theorem C7_color_noop_witness :
    colorStage baseOpts world1 img2x1 = ([], img2x1) :=
  C7_color_noop _ _ _ rfl rfl rfl

/-- Is this event an image-processing call of some work item? -/
def isItemAct : Event → Bool
  | .item_act _ _ => true
  | _ => false

/-- Is this event part of the worker-pool phase (a per-item call or a
per-item terminal state)? -/
def isPoolEvent : Event → Bool
  | .item_act _ _ => true
  | .item_term _ _ => true
  | _ => false

/-- The trace splits into a setup part containing the config write and free
of image-processing calls, followed by a part holding only worker-pool
events: every config write happens before any image processing. -/
def ConfigBeforeImages (t : List Event) : Prop :=
  ∃ setup pool, t = setup ++ pool
    ∧ (∃ d, Event.wrote_config d ∈ setup)
    ∧ (∀ e ∈ setup, isItemAct e = false)
    ∧ (∀ e ∈ pool, isPoolEvent e = true)

theorem mem_itemEvents_isPool (o : Opts) (w : World) (il ol : LensInfo)
    (p : List Char) (e : Event) (he : e ∈ itemEvents o w il ol p) :
    isPoolEvent e = true := by
  unfold itemEvents at he
  rcases List.mem_append.mp he with h | h
  · rcases List.mem_map.mp h with ⟨a, _, rfl⟩
    rfl
  · rcases List.mem_singleton.mp h with rfl
    rfl

/-- C8: whenever a run writes the output config at all (i.e. it passed
configuration validation), the write happens in the setup part of the
trace, strictly before any image-processing event; and in dry-run mode the
run exits with code 0 after the config write, with no image-processing
event at all (main.cpp:288-299). -/
theorem C8_config_persisted_before_processing (o : Opts) (w : World)
    (h : ∃ d, Event.wrote_config d ∈ (runMain o w).2) :
    ConfigBeforeImages (runMain o w).2
    ∧ (o.dry_run = true →
        (runMain o w).1 = 0
        ∧ ∀ e ∈ (runMain o w).2, isItemAct e = false) := by
  unfold runMain at h ⊢
  by_cases c1 : o.input_dir.isSome = true ∧ o.single.isSome = true
  · rw [if_pos c1] at h ⊢
    exact absurd h (by simp)
  · rw [if_neg c1] at h ⊢
    by_cases c2 : o.input_dir.isNone = true ∧ o.single.isNone = true
    · rw [if_pos c2] at h ⊢
      exact absurd h (by simp)
    · rw [if_neg c2] at h ⊢
      by_cases c3 : o.exr = false ∧ o.png = false
      · rw [if_pos c3] at h ⊢
        exact absurd h (by simp)
      · rw [if_neg c3] at h ⊢
        rcases hc : configPhase w.atof w.init_lens o w.input_cfg with c | ph
        · rw [hc] at h
          simp at h
        · rw [hc] at h
          dsimp only at h ⊢
          by_cases c4 : o.dry_run = true
          · rw [if_pos c4] at h ⊢
            refine ⟨⟨[Event.created_dir, Event.wrote_config ph.out_cfg], [],
              by simp, ⟨ph.out_cfg, by simp⟩, ?_, by simp⟩, fun _ => ⟨rfl, ?_⟩⟩
            · intro e he
              rcases List.mem_cons.mp he with rfl | he
              · rfl
              · rcases List.mem_singleton.mp (by simpa using he) with rfl
                rfl
            · intro e he
              rcases List.mem_cons.mp he with rfl | he
              · rfl
              · rcases List.mem_singleton.mp (by simpa using he) with rfl
                rfl
          · rw [if_neg c4] at h ⊢
            refine ⟨⟨[Event.created_dir, Event.wrote_config ph.out_cfg],
              ((submittedItems o w).map
                (itemEvents o w ph.input_lens ph.output_lens)).flatten,
              by simp, ⟨ph.out_cfg, by simp⟩, ?_, ?_⟩,
              fun hd => absurd hd c4⟩
            · intro e he
              rcases List.mem_cons.mp he with rfl | he
              · rfl
              · rcases List.mem_singleton.mp (by simpa using he) with rfl
                rfl
            · intro e he
              rcases List.mem_flatten.mp he with ⟨lst, hlst, helst⟩
              rcases List.mem_map.mp hlst with ⟨p, _, rfl⟩
              exact mem_itemEvents_isPool o w ph.input_lens ph.output_lens
                p e helst

/-- A dry-run invocation: `--single img.png --png --no-reproject --dry-run`. -/
def optsDry : Opts :=
  { baseOpts with dry_run := true, no_reproject := true }

set_option maxRecDepth 4000 in
/-- Witness for C8: the dry-run invocation `optsDry` writes the config and
performs no image work. -/
theorem C8_config_persisted_before_processing_witness :
    ConfigBeforeImages (runMain optsDry world1).2
    ∧ (optsDry.dry_run = true →
        (runMain optsDry world1).1 = 0
        ∧ ∀ e ∈ (runMain optsDry world1).2, isItemAct e = false) :=
  C8_config_persisted_before_processing _ _
    ⟨cfg640, of_decide_eq_true (by with_unfolding_all rfl)⟩

theorem outcomeDelta_eq_ite (oc : Outcome) :
    outcomeDelta oc = if oc = Outcome.failed then 0 else 1 := by
  cases oc <;> rfl

/-- C9: the progress counter semantics of the worker pool
(main.cpp:301-302, 325, 370-374).  After any list of submitted items, the
counter equals the number of items whose terminal state is not `failed`
(completed or skipped — each contributes exactly once); the counter is
non-decreasing as processing advances; and an item whose processing throws
contributes `0`. -/
theorem C9_progress_counter (o : Opts) (w : World) (il ol : LensInfo)
    (items : List (List Char)) :
    doneCountAfter o w il ol items
      = ((items.map (process_file o w il ol)).filter
          (fun r => r.outcome ≠ Outcome.failed)).length
    ∧ (∀ n, doneCountAfter o w il ol (items.take n)
        ≤ doneCountAfter o w il ol (items.take (n + 1)))
    ∧ (∀ p, (process_file o w il ol p).outcome = Outcome.failed →
        outcomeDelta (process_file o w il ol p).outcome = 0)
    ∧ (∀ p, (process_file o w il ol p).outcome ≠ Outcome.failed →
        outcomeDelta (process_file o w il ol p).outcome = 1) := by
  refine ⟨?_, ?_, ?_, ?_⟩
  · induction items with
    | nil => rfl
    | cons p rest ih =>
      show outcomeDelta (process_file o w il ol p).outcome
          + doneCountAfter o w il ol rest = _
      rw [outcomeDelta_eq_ite, ih]
      by_cases hf : (process_file o w il ol p).outcome = Outcome.failed
      · rw [if_pos hf]
        simp [List.filter, hf]
      · rw [if_neg hf]
        simp [List.filter, hf]
        omega
  · intro n
    rw [List.take_succ]
    unfold doneCountAfter
    rw [List.map_append, List.sum_append]
    exact Nat.le_add_right _ _
  · intro p hf
    rw [outcomeDelta_eq_ite, if_pos hf]
  · intro p hf
    rw [outcomeDelta_eq_ite, if_neg hf]

/-- C10: in directory-input mode the submitted work items are exactly the
directory entries that are regular files, pass the prefix/suffix filter and
carry extension `.exr` or `.png` (everything else is silently skipped), and
they are submitted in lexicographically sorted path order
(main.cpp:379-406). -/
theorem C10_directory_submission (o : Opts) (w : World) (d : List Char)
    (h : o.input_dir = some d) :
    (∀ fn, fn ∈ submittedItems o w ↔
        ((∃ e ∈ w.dir_entries, e.is_regular_file = true ∧ e.name = fn)
          ∧ dirKeep o.filter_pre o.filter_suf fn = true
          ∧ (pathExtension fn = ".exr".data
             ∨ pathExtension fn = ".png".data)))
    ∧ List.Sorted (· ≤ ·) (submittedItems o w) := by
  unfold submittedItems
  rw [h]
  dsimp only
  constructor
  · intro fn
    rw [List.mem_filter, (List.perm_insertionSort _ _).mem_iff]
    simp only [List.mem_map, List.mem_filter, Bool.and_eq_true,
      Bool.or_eq_true, beq_iff_eq]
    constructor
    · rintro ⟨⟨e, ⟨he, hreg⟩, rfl⟩, hk, hext⟩
      exact ⟨⟨e, he, hreg, rfl⟩, hk, hext⟩
    · rintro ⟨⟨e, he, hreg, rfl⟩, hk, hext⟩
      exact ⟨⟨e, ⟨he, hreg⟩, rfl⟩, hk, hext⟩
  · exact (List.sorted_insertionSort _ _).filter _

/-- A directory-mode invocation: `--input-dir frames --png`. -/
def optsDir : Opts :=
  { baseOpts with single := none, input_dir := some "frames".data }

/-- A world whose input directory holds two matching images, a text file and
a non-regular `.png` entry. -/
def worldDir : World :=
  { world1 with dir_entries :=
      [⟨"b.png".data, true⟩, ⟨"a.exr".data, true⟩,
       ⟨"notes.txt".data, true⟩, ⟨"sub.png".data, false⟩] }

/-- Witness for C10: the `optsDir`/`worldDir` run. -/
theorem C10_directory_submission_witness :
    (∀ fn, fn ∈ submittedItems optsDir worldDir ↔
        ((∃ e ∈ worldDir.dir_entries, e.is_regular_file = true ∧ e.name = fn)
          ∧ dirKeep optsDir.filter_pre optsDir.filter_suf fn = true
          ∧ (pathExtension fn = ".exr".data
             ∨ pathExtension fn = ".png".data)))
    ∧ List.Sorted (· ≤ ·) (submittedItems optsDir worldDir) :=
  C10_directory_submission optsDir worldDir "frames".data rfl

/-- Witness for C9: the baseline invocation with a single submitted item. -/
theorem C9_progress_counter_witness :
    doneCountAfter baseOpts world1 lens0 lens0 ["img.png".data]
      = ((["img.png".data].map
          (process_file baseOpts world1 lens0 lens0)).filter
          (fun r => r.outcome ≠ Outcome.failed)).length
    ∧ (∀ n, doneCountAfter baseOpts world1 lens0 lens0
          (["img.png".data].take n)
        ≤ doneCountAfter baseOpts world1 lens0 lens0
          (["img.png".data].take (n + 1)))
    ∧ (∀ p, (process_file baseOpts world1 lens0 lens0 p).outcome
          = Outcome.failed →
        outcomeDelta (process_file baseOpts world1 lens0 lens0 p).outcome = 0)
    ∧ (∀ p, (process_file baseOpts world1 lens0 lens0 p).outcome
          ≠ Outcome.failed →
        outcomeDelta (process_file baseOpts world1 lens0 lens0 p).outcome
          = 1) :=
  C9_progress_counter baseOpts world1 lens0 lens0 ["img.png".data]
